import Mathlib

/-!
Verification of the API client / token-management subsystem of the
happenin-rn repository (the `ApiClient` class embedded in
`src/hooks/useApi.ts`, the configuration in `config.ts`, and the
keychain/fallback token storages in `KeychainTokenStorage.ts` /
`storage/index.ts`).

The TypeScript code is shallowly embedded: the retry loop of
`ApiClient.request`, the refresh coordinator `handleTokenRefresh`, the
token-refresh call `refreshToken`, and `login` become explicit
state-passing functions over a `Trace` (client state + event log), with
the network abstracted as an oracle `Nat → FetchOut` giving the outcome
of the k-th `fetch` performed during the execution.  JavaScript runs a
single request's control flow sequentially (cooperative suspension only
at `await`s), so a single request's execution is a deterministic
function of the oracle; that is exactly what the interpreter computes.
-/

namespace Happenin

/-! ## Configuration (`config.ts`, `API_CONFIG` / `API_STATUS`) -/

/-- `API_CONFIG.TIMEOUT` (30000 ms). -/
def TIMEOUT : Nat := 30000

/-- `API_CONFIG.MAX_RETRIES`. -/
def MAX_RETRIES : Nat := 3

/-- `API_CONFIG.RETRY_DELAY` (base backoff delay, ms). -/
def RETRY_DELAY : Nat := 1000

/-- `API_STATUS.BAD_REQUEST`. -/
def BAD_REQUEST : Nat := 400

/-- `API_STATUS.UNAUTHORIZED`. -/
def UNAUTHORIZED : Nat := 401

/-- `API_STATUS.FORBIDDEN`. -/
def FORBIDDEN : Nat := 403

/-- Headers are modelled as JavaScript objects: finite string-keyed maps,
here total functions to `Option String`. -/
def Headers : Type := String → Option String

/-- `API_CONFIG.DEFAULT_HEADERS`. -/
def DEFAULT_HEADERS : Headers := fun k =>
  if k = "Content-Type" then some "application/json"
  else if k = "Accept" then some "application/json"
  else if k = "User-Agent" then some "Happenin-Mobile/1.0.0"
  else none

/-- `buildApiUrl` (`config.ts`): base url + `/api/` + version + endpoint
(production configuration; the environment switch only changes the base
host and is irrelevant to the claims). -/
def buildApiUrl (endpoint : String) : String :=
  "https://api.happenin.com/api/v1" ++ endpoint

/-- Object spread `{...d, ...c}`: keys of `c` win over keys of `d`. -/
def mergeHeaders (d c : Headers) : Headers := fun k =>
  match c k with
  | some v => some v
  | none => d k

/-- `ApiClient.buildHeaders`: `{...API_CONFIG.DEFAULT_HEADERS, ...customHeaders}`. -/
def buildHeaders (custom : Headers) : Headers :=
  mergeHeaders DEFAULT_HEADERS custom

/-- Property assignment `obj[k] = v` on a headers object. -/
def setHeader (h : Headers) (k v : String) : Headers := fun k2 =>
  if k2 = k then some v else h k2

/-! ## Responses and errors (`client.ts`) -/

/-- The fields of a parsed JSON response body that the client inspects:
`success`, `data?.token`, `data?.refreshToken`, `code`, `message`.
Absent fields are `none` (JavaScript `undefined`). -/
structure RespBody where
  success : Bool := false
  token : Option String := none
  refreshTok : Option String := none
  code : Option String := none
  message : Option String := none
deriving Repr, DecidableEq

/-- An HTTP response as seen by the client: status, whether the
`content-type` is JSON, the (parsed) JSON body, raw text, status text. -/
structure HttpResp where
  status : Nat
  isJson : Bool := true
  body : RespBody := {}
  text : String := ""
  statusText : String := ""
deriving Repr, DecidableEq

/-- `Response.ok`: status in the range 200-299. -/
def HttpResp.okFlag (r : HttpResp) : Bool :=
  decide (200 ≤ r.status ∧ r.status < 300)

/-- Errors a request attempt can raise: `ApiClientError` (status, code,
message), the `AbortError` raised when the fetch is aborted (timeout or
external signal), or a plain `Error` (network failure / the generic
"Request failed after all retries"). -/
inductive ReqError
  | api (status : Nat) (code : String) (message : String)
  | abortError
  | generic (message : String)
deriving Repr, DecidableEq

/-- What `parseResponse` hands back: decoded JSON or raw text. -/
inductive ParsedBody
  | json (b : RespBody)
  | text (s : String)
deriving Repr, DecidableEq

/-- `ApiClient.parseResponse`: JSON bodies are decoded; on a non-ok
status an `ApiClientError` is raised from the body's `code`/`message`
(with defaults), or an `HTTP_ERROR` for non-JSON bodies. -/
def parseResponse (r : HttpResp) : Except ReqError ParsedBody :=
  if r.isJson then
    if r.okFlag then Except.ok (ParsedBody.json r.body)
    else Except.error (ReqError.api r.status (r.body.code.getD "UNKNOWN_ERROR")
      (r.body.message.getD "Request failed"))
  else
    if r.okFlag then Except.ok (ParsedBody.text r.text)
    else Except.error (ReqError.api r.status "HTTP_ERROR"
      ("HTTP " ++ toString r.status ++ ": " ++ r.statusText))

/-! ## Client state, traces, oracle -/

/-- `DefaultTokenStorage`: the access/refresh token cell owned by the
client (synchronous getters/setters). -/
structure Store where
  accessToken : Option String := none
  refreshToken : Option String := none
deriving Repr, DecidableEq

/-- The mutable `ApiClient` fields relevant to requests: the token
storage and the `isRefreshing` single-flight flag. -/
structure ClientState where
  store : Store := {}
  isRefreshing : Bool := false
deriving Repr, DecidableEq

/-- Observable events of an execution: each `fetch` (with the URL and
the `Authorization` header it carried) and each backoff `sleep`. -/
inductive Ev
  | fetch (url : String) (auth : Option String)
  | sleep (ms : Nat)
deriving Repr, DecidableEq

/-- Execution trace: client state, chronological event log, and the
number of fetches performed so far (index into the network oracle). -/
structure Trace where
  st : ClientState := {}
  events : List Ev := []
  fetchCount : Nat := 0
deriving Repr, DecidableEq

/-- Outcome of one `fetch`: a response, rejection with `AbortError`
(timeout fired, or the external cancellation signal aborted the
in-flight attempt), or rejection with a network error. -/
inductive FetchOut
  | resp (r : HttpResp)
  | abort
  | netErr (m : String)
deriving Repr, DecidableEq

/-- Result of a (sub)computation: normal value, thrown error, or a
promise that never resolves (`pending` = the computation hangs). -/
inductive Res (α : Type)
  | ok (v : α)
  | thrown (e : ReqError)
  | pending
deriving Repr, DecidableEq

/-- `ApiClientResponse`: what `request` resolves with. -/
structure ReqResult where
  data : ParsedBody
  status : Nat
  ok : Bool
deriving Repr, DecidableEq

def logFetch (tr : Trace) (url : String) (auth : Option String) : Trace :=
  { tr with events := tr.events ++ [Ev.fetch url auth], fetchCount := tr.fetchCount + 1 }

def logSleep (tr : Trace) (ms : Nat) : Trace :=
  { tr with events := tr.events ++ [Ev.sleep ms] }

/-- The `catch` block's non-retryable test:
`error instanceof ApiClientError && status ∈ {400, 401, 403}`. -/
def isNonRetryable : ReqError → Bool
  | ReqError.api s _ _ => s == BAD_REQUEST || s == UNAUTHORIZED || s == FORBIDDEN
  | _ => false

/-- `throw lastError || new Error('Request failed after all retries')`. -/
def throwLast (lastError : Option ReqError) : Res ReqResult :=
  Res.thrown (lastError.getD (ReqError.generic "Request failed after all retries"))

/-- How one iteration of the `try` block ends. -/
inductive IterStep
  | done (rr : ReqResult)
  | refreshRetry (tok : String)
  | caught (e : ReqError)
  | deadlock
deriving Repr, DecidableEq

/-- Tail of the `try` block: `parseResponse` then `return`, or the
raised `ApiClientError` flowing to `catch`. -/
def stepOfParse (r : HttpResp) : IterStep :=
  match parseResponse r with
  | Except.ok d => IterStep.done { data := d, status := r.status, ok := r.okFlag }
  | Except.error e => IterStep.caught e

/-- The retry loop of `ApiClient.request` (lines 387-445 of the source):
`for (attempt = 0; attempt <= retries; attempt++)`.  `rem` is the number
of loop iterations still permitted (`retries + 1 - attempt`, maintained
by the caller `requestM`); `attempt` is the loop counter the source
inspects.  `rh` is `this.handleTokenRefresh` (passed as a parameter so
the `/auth/refresh` request issued from inside a refresh can be given
the already-refreshing behaviour without mutual recursion).  The body:
fetch; on a 401 with `attempt === 0`, await the refresh and on a new
token rewrite the `Authorization` header and `continue`; otherwise parse
and return; on a caught error, break on 400/401/403, else sleep
`RETRY_DELAY * 2 ^ attempt` when `attempt < retries` and retry. -/
def requestLoop (oracle : Nat → FetchOut) (rh : Trace → Res (Option String) × Trace)
    (url : String) (retries : Nat) :
    Nat → Nat → Headers → Option ReqError → Trace → Res ReqResult × Trace
  | 0, _attempt, _hdrs, lastError, tr => (throwLast lastError, tr)
  | rem + 1, attempt, hdrs, lastError, tr =>
    let step : IterStep × Trace :=
      match oracle tr.fetchCount with
      | FetchOut.abort =>
        (IterStep.caught ReqError.abortError, logFetch tr url (hdrs "Authorization"))
      | FetchOut.netErr m =>
        (IterStep.caught (ReqError.generic m), logFetch tr url (hdrs "Authorization"))
      | FetchOut.resp r =>
        if r.status = UNAUTHORIZED ∧ attempt = 0 then
          match rh (logFetch tr url (hdrs "Authorization")) with
          | (Res.ok (some t), tr2) => (IterStep.refreshRetry t, tr2)
          | (Res.ok none, tr2) => (stepOfParse r, tr2)
          | (Res.thrown e, tr2) => (IterStep.caught e, tr2)
          | (Res.pending, tr2) => (IterStep.deadlock, tr2)
        else (stepOfParse r, logFetch tr url (hdrs "Authorization"))
    match step with
    | (IterStep.done rr, tr2) => (Res.ok rr, tr2)
    | (IterStep.deadlock, tr2) => (Res.pending, tr2)
    | (IterStep.refreshRetry t, tr2) =>
      requestLoop oracle rh url retries rem (attempt + 1)
        (setHeader hdrs "Authorization" ("Bearer " ++ t)) lastError tr2
    | (IterStep.caught e, tr2) =>
      if isNonRetryable e then (Res.thrown e, tr2)
      else
        requestLoop oracle rh url retries rem (attempt + 1) hdrs (some e)
          (if attempt < retries then logSleep tr2 (RETRY_DELAY * 2 ^ attempt) else tr2)

/-- The header-construction phase of `request` (lines 376-383): merge
default and caller headers, then, if `getAccessToken()` is truthy
(non-null, non-empty), assign `Authorization = Bearer <token>` —
overwriting any caller-supplied `Authorization`. -/
def requestHeadersFor (store : Store) (custom : Headers) : Headers :=
  match store.accessToken with
  | some t =>
    if t = "" then buildHeaders custom
    else setHeader (buildHeaders custom) "Authorization" ("Bearer " ++ t)
  | none => buildHeaders custom

/-- The caller-controllable request options (method and body do not
influence the modelled control flow beyond the oracle's outcomes). -/
structure RequestOptions where
  method : String := "GET"
  headers : Headers := fun _ => none
  retries : Nat := MAX_RETRIES

/-- `ApiClient.request` with an explicit refresh handler `rh`. -/
def requestM (oracle : Nat → FetchOut) (rh : Trace → Res (Option String) × Trace)
    (endpoint : String) (opts : RequestOptions) (tr : Trace) : Res ReqResult × Trace :=
  requestLoop oracle rh (buildApiUrl endpoint) opts.retries (opts.retries + 1) 0
    (requestHeadersFor tr.st.store opts.headers) none tr

/-- `handleTokenRefresh` as seen by the `/auth/refresh` request issued
from inside `refreshToken`: at that point `isRefreshing` is `true`, so
the source returns `this.refreshPromise`.  That promise is the promise
of the very `refreshToken()` call this request is part of, so in a
single-request execution awaiting it can never resolve: modelled as
`pending`.  The `isRefreshing = false` branch is unreachable from
`refreshTokenM` (which only runs after `handleTokenRefreshM` set the
flag); it is given a poison error so any modelling mistake would
surface in the theorems. -/
def pendingRefreshHandler : Trace → Res (Option String) × Trace := fun tr =>
  if tr.st.isRefreshing then (Res.pending, tr)
  else (Res.thrown (ReqError.generic "unreachable: nested refresh while idle"), tr)

def clearTokens (tr : Trace) : Trace :=
  { tr with st := { tr.st with store := { accessToken := none, refreshToken := none } } }

def setTokens (tr : Trace) (a r : Option String) : Trace :=
  { tr with st := { tr.st with store := { accessToken := a, refreshToken := r } } }

/-- `ApiClient.refreshToken` (lines 491-509): if no refresh token,
return null; else POST `/auth/refresh` (through `this.post`, hence
through the full retry loop with default options); on a success-shaped
body store the new tokens and return the new access token; if the post
throws, clear both tokens and return null; any other body returns null
leaving the store untouched. -/
def refreshTokenM (oracle : Nat → FetchOut) (tr : Trace) : Res (Option String) × Trace :=
  match tr.st.store.refreshToken with
  | none => (Res.ok none, tr)
  | some rt =>
    if rt = "" then (Res.ok none, tr)
    else
      match requestM oracle pendingRefreshHandler "/auth/refresh" { method := "POST" } tr with
      | (Res.ok resp, tr2) =>
        match resp.data with
        | ParsedBody.json b =>
          match b.token with
          | some t =>
            if b.success ∧ t ≠ "" then (Res.ok (some t), setTokens tr2 (some t) b.refreshTok)
            else (Res.ok none, tr2)
          | none => (Res.ok none, tr2)
        | ParsedBody.text _ => (Res.ok none, tr2)
      | (Res.thrown _e, tr2) => (Res.ok none, clearTokens tr2)
      | (Res.pending, tr2) => (Res.pending, tr2)

/-- `ApiClient.handleTokenRefresh` (lines 548-563): if a refresh is
already in flight, await the shared pending promise (in a
single-request execution that promise is this request's own refresh, so
it never resolves); otherwise set `isRefreshing`, run `refreshToken`,
and in `finally` reset the flag.  When the awaited promise never
resolves the `finally` never runs. -/
def handleTokenRefreshM (oracle : Nat → FetchOut) (tr : Trace) : Res (Option String) × Trace :=
  if tr.st.isRefreshing then (Res.pending, tr)
  else
    match refreshTokenM oracle { tr with st := { tr.st with isRefreshing := true } } with
    | (Res.ok t, tr2) => (Res.ok t, { tr2 with st := { tr2.st with isRefreshing := false } })
    | (Res.thrown e, tr2) => (Res.thrown e, { tr2 with st := { tr2.st with isRefreshing := false } })
    | (Res.pending, tr2) => (Res.pending, tr2)

/-- A top-level `ApiClient.request` call (the composition actually run
by the client: the retry loop with `handleTokenRefresh` as the refresh
handler). -/
def clientRequest (oracle : Nat → FetchOut) (endpoint : String) (opts : RequestOptions)
    (tr : Trace) : Res ReqResult × Trace :=
  requestM oracle (handleTokenRefreshM oracle) endpoint opts tr

/-- `ApiClient.login` (lines 471-481): POST `/auth/login`; on a body
with `success && data?.token` store access and refresh tokens; return
the parsed body; errors from the post propagate. -/
def loginM (oracle : Nat → FetchOut) (_email _password : String) (tr : Trace) :
    Res ParsedBody × Trace :=
  match clientRequest oracle "/auth/login" { method := "POST" } tr with
  | (Res.ok resp, tr2) =>
    match resp.data with
    | ParsedBody.json b =>
      match b.token with
      | some t =>
        if b.success ∧ t ≠ "" then (Res.ok (ParsedBody.json b), setTokens tr2 (some t) b.refreshTok)
        else (Res.ok (ParsedBody.json b), tr2)
      | none => (Res.ok (ParsedBody.json b), tr2)
    | ParsedBody.text s => (Res.ok (ParsedBody.text s), tr2)
  | (Res.thrown e, tr2) => (Res.thrown e, tr2)
  | (Res.pending, tr2) => (Res.pending, tr2)

/-! ## Failure classes and concrete scenarios used in the theorems -/

/-- A failure of the kind the spec calls retryable: HTTP 500, a timeout
(the fetch aborts), or HTTP 429. -/
def retryableFailure (o : FetchOut) : Prop :=
  o = FetchOut.abort ∨ ∃ r : HttpResp, o = FetchOut.resp r ∧ (r.status = 500 ∨ r.status = 429)

/-- The error the `catch` block observes for a failing fetch outcome:
`AbortError` for an aborted fetch, the network error, or the
`ApiClientError` that `parseResponse` raises for a non-ok response.
(The `ok` case of a successful response is unreachable for failures.) -/
def surfacedError : FetchOut → ReqError
  | FetchOut.abort => ReqError.abortError
  | FetchOut.netErr m => ReqError.generic m
  | FetchOut.resp r =>
    match parseResponse r with
    | Except.error e => e
    | Except.ok _ => ReqError.generic "no error: response parsed successfully"

/-- A 401 response carrying a JSON error body. -/
def resp401 : HttpResp :=
  { status := 401, body := { code := some "TOKEN_EXPIRED", message := some "Token expired" } }

/-- A 500 response carrying a JSON error body. -/
def respServerErr : HttpResp :=
  { status := 500, body := { code := some "SRV", message := some "boom" } }

/-- A successful `/auth/refresh` response: new access token `tok`,
rotated refresh token. -/
def refreshSuccessResp (tok : String) : HttpResp :=
  { status := 200, body := { success := true, token := some tok, refreshTok := some "rot1" } }

/-- A client holding an (expired) access token and a refresh token. -/
def storeExpired : Store := { accessToken := some "expired", refreshToken := some "r1" }

def trExpired : Trace := { st := { store := storeExpired } }

/-- Network: the main request gets a 401 and the `/auth/refresh` call
itself also gets a 401. -/
def oracleRefresh401 : Nat → FetchOut := fun k =>
  if k = 0 then FetchOut.resp resp401
  else if k = 1 then FetchOut.resp resp401
  else FetchOut.netErr "unused"

/-- Network: the main request gets a 401 and `/auth/refresh` answers
HTTP 200 whose body carries no token. -/
def oracleRefreshNoToken : Nat → FetchOut := fun k =>
  if k = 0 then FetchOut.resp resp401
  else if k = 1 then FetchOut.resp { status := 200, body := { success := false } }
  else FetchOut.netErr "unused"

/-- Network: the main request gets a 401 and `/auth/refresh` succeeds
with new token "new". -/
def oracleRefreshZero : Nat → FetchOut := fun k =>
  if k = 0 then FetchOut.resp resp401
  else if k = 1 then FetchOut.resp (refreshSuccessResp "new")
  else FetchOut.netErr "unused"

/-- Network: the first attempt is aborted (external cancellation
signal); the second attempt gets a plain 200. -/
def oracleAbortThenOk : Nat → FetchOut := fun k =>
  if k = 0 then FetchOut.abort
  else FetchOut.resp { status := 200, body := { success := true } }

/-- Network: every attempt fails with HTTP 500. -/
def oracleAllServerErr : Nat → FetchOut := fun _ => FetchOut.resp respServerErr

/-- Network: the login POST gets a 401 (bad credentials) and the
`/auth/refresh` call triggered by it gets a 400. -/
def oracleLogin401 : Nat → FetchOut := fun k =>
  if k = 0 then FetchOut.resp { status := 401, body := { code := some "BAD_CREDENTIALS", message := some "Invalid" } }
  else if k = 1 then FetchOut.resp { status := 400, body := { code := some "BAD", message := some "Bad" } }
  else FetchOut.netErr "unused"

/-- A client holding no access token but a stale refresh token. -/
def trStale : Trace := { st := { store := { accessToken := none, refreshToken := some "stale" } } }

/-- Does this event record a fetch of the given URL? -/
def isFetchTo (u : String) : Ev → Bool
  | Ev.fetch url _ => url == u
  | _ => false

/-- Caller-supplied headers carrying their own `Authorization`. -/
def customAuthHeaders : Headers := fun k =>
  if k = "Authorization" then some "Custom abc" else none

/-- Network: 401 on the main request, a successful refresh, then a 401
again on the retried main request. -/
def oracleRefreshThen401 : Nat → FetchOut := fun k =>
  if k = 0 then FetchOut.resp resp401
  else if k = 1 then FetchOut.resp (refreshSuccessResp "new")
  else if k = 2 then FetchOut.resp resp401
  else FetchOut.netErr "unused"

/-- Network: every attempt answers HTTP 400 with a JSON error body. -/
def oracle400flat : Nat → FetchOut := fun _ =>
  FetchOut.resp { status := 400, body := { code := some "BAD", message := some "Bad" } }

/-- Network: every attempt answers HTTP 401 with a JSON error body. -/
def oracle401flat : Nat → FetchOut := fun _ =>
  FetchOut.resp { status := 401, body := { code := some "E", message := some "M" } }

/-- Network: the login POST succeeds with a token-bearing body. -/
def oracleLoginSuccess : Nat → FetchOut := fun _ =>
  FetchOut.resp { status := 200, body := { success := true, token := some "t1", refreshTok := some "r9" } }

/-- Network: the login POST answers HTTP 200 but `success` is false. -/
def oracleLoginFlat : Nat → FetchOut := fun _ =>
  FetchOut.resp { status := 200, body := { success := false } }

/-- Network: every attempt answers HTTP 200 with a non-JSON body. -/
def oracleTextOk : Nat → FetchOut := fun _ =>
  FetchOut.resp { status := 200, isJson := false, text := "pong" }

/-- The events an all-failures run of the retry loop produces, starting
at loop counter `attempt` with `rem` iterations left: one fetch per
attempt and, between attempts (`attempt < retries`), the exponential
backoff sleep. -/
def retryTrail (url : String) (a : Option String) (retries : Nat) : Nat → Nat → List Ev
  | _attempt, 0 => []
  | attempt, rem + 1 =>
    Ev.fetch url a ::
      (if attempt < retries then
        Ev.sleep (RETRY_DELAY * 2 ^ attempt) :: retryTrail url a retries (attempt + 1) rem
       else retryTrail url a retries (attempt + 1) rem)

/-! ## The refresh coordinator under concurrency (claim C1)

The single-request interpreter above cannot express N concurrent
requests racing on a 401.  JavaScript interleaves their executions at
`await` points only, and the decisive region of `handleTokenRefresh` —
the `isRefreshing` test, setting the flag, and storing
`this.refreshPromise = this.refreshToken()` — contains no `await`
(`refreshToken()` only starts the async call), so each caller executes
that region atomically.  `coordEnter` is that atomic region;
`coordResolve` is the resolution of the pending refresh promise
together with the `finally` block that resets the flag. -/

/-- The `ApiClient` fields driving the single-flight refresh, plus
bookkeeping: promise identities (`nextId` names the next created
promise) and how many actual refresh calls have been issued. -/
structure Coord where
  isRefreshing : Bool := false
  refreshPromise : Option Nat := none
  nextId : Nat := 0
  refreshCalls : Nat := 0
deriving Repr, DecidableEq

/-- A caller that has just observed a 401 enters `handleTokenRefresh`:
if a refresh is in flight it gets the pending `refreshPromise`;
otherwise it sets the flag, issues one refresh call, and creates (and
gets) a fresh promise for it. -/
def coordEnter (c : Coord) : Coord × Option Nat :=
  if c.isRefreshing then (c, c.refreshPromise)
  else
    ({ isRefreshing := true, refreshPromise := some c.nextId,
       nextId := c.nextId + 1, refreshCalls := c.refreshCalls + 1 }, some c.nextId)

/-- The in-flight refresh resolves with result `r` (the new access
token, or `none` on failure): the pending promise now holds `r` for
every caller awaiting it, and the `finally` block resets the flag and
nulls `refreshPromise`. -/
def coordResolve (c : Coord) (r : Option String) (results : Nat → Option (Option String)) :
    Coord × (Nat → Option (Option String)) :=
  match c.refreshPromise with
  | some p =>
    ({ c with isRefreshing := false, refreshPromise := none },
     fun q => if q = p then some r else results q)
  | none => (c, results)

/-- `n` callers enter the coordinator one after another (no resolution
in between): final coordinator state and the promise each one awaits. -/
def entersFrom (c : Coord) : Nat → Coord × List (Option Nat)
  | 0 => (c, [])
  | n + 1 =>
    let e := coordEnter c
    let rest := entersFrom e.1 n
    (rest.1, e.2 :: rest.2)

/-! ## `isAuthenticated` and the pluggable token storages (claim C8) -/

/-- The JavaScript values `getAccessToken()` can evaluate to once
`setTokenStorage` may have swapped the backend: `null`, a string, or —
for the promise-based storages of `KeychainTokenStorage.ts` — a
`Promise` object (which resolves to the stored value). -/
inductive JsValue
  | null
  | str (s : String)
  | promiseOf (v : Option String)
deriving Repr, DecidableEq

/-- JavaScript truthiness (`!!x`): `null` and `""` are falsy; any
object — including a `Promise`, whatever it resolves to — is truthy. -/
def jsTruthy : JsValue → Bool
  | JsValue.null => false
  | JsValue.str s => !(s == "")
  | JsValue.promiseOf _ => true

/-- The token-storage backends `setTokenStorage` can install: the
synchronous `DefaultTokenStorage`, the keychain-backed storage, and the
in-memory `FallbackTokenStorage` (both of the latter have `async`
getters returning promises). -/
inductive ActiveTokenStorage
  | defaultStorage (s : Store)
  | keychainStorage (accessToken refreshToken : Option String)
  | fallbackStorage (s : Store)
deriving Repr, DecidableEq

/-- What the expression `this.tokenStorage.getAccessToken()` evaluates
to for each backend: the stored string or `null` for the synchronous
storage; for the `async` storages, a `Promise` of the stored value. -/
def getAccessTokenJs : ActiveTokenStorage → JsValue
  | ActiveTokenStorage.defaultStorage s =>
    match s.accessToken with
    | some t => JsValue.str t
    | none => JsValue.null
  | ActiveTokenStorage.keychainStorage a _ => JsValue.promiseOf a
  | ActiveTokenStorage.fallbackStorage s => JsValue.promiseOf s.accessToken

/-- `ApiClient.isAuthenticated` (lines 566-568):
`return !!this.tokenStorage.getAccessToken()`. -/
def isAuthenticated (st : ActiveTokenStorage) : Bool :=
  jsTruthy (getAccessTokenJs st)

/-- The spec-side notion the claim compares against: whether an access
token value is currently present in the active storage. -/
def accessTokenPresent : ActiveTokenStorage → Bool
  | ActiveTokenStorage.defaultStorage s => s.accessToken.isSome
  | ActiveTokenStorage.keychainStorage a _ => a.isSome
  | ActiveTokenStorage.fallbackStorage s => s.accessToken.isSome

/-! ## `getTokenStorage` and the keychain probe (claim C10) -/

/-- Outcome of the keychain probe `Keychain.getSupportedBiometryType()`:
it either resolves (possibly with `null` when no biometry is enrolled)
or rejects. -/
inductive ProbeOutcome
  | resolves (biometryType : Option String)
  | throwsErr (msg : String)
deriving Repr, DecidableEq

/-- `KeychainTokenStorage.isAvailable`: awaits the probe inside
`try/catch`; any resolution yields `true`, any rejection `false` —
it never rejects itself. -/
def keychainIsAvailable : ProbeOutcome → Bool
  | ProbeOutcome.resolves _ => true
  | ProbeOutcome.throwsErr _ => false

/-- What `getTokenStorage` resolves to. -/
inductive TokenStorageChoice
  | keychainChoice
  | fallbackChoice (s : Store)
deriving Repr, DecidableEq

/-- `getTokenStorage` (storage/index.ts): `try { if (await
KeychainTokenStorage.isAvailable()) return new KeychainTokenStorage() }
catch {...}; return new FallbackTokenStorage()`.  `isAvailable` is
total (it catches internally) and the constructors cannot throw, so the
outer `catch` is dead; the `Except` result makes the
possibility of rejection explicit. -/
def getTokenStorage (p : ProbeOutcome) : Except String TokenStorageChoice :=
  if keychainIsAvailable p then Except.ok TokenStorageChoice.keychainChoice
  else Except.ok (TokenStorageChoice.fallbackChoice { accessToken := none, refreshToken := none })

/-- `FallbackTokenStorage.setAccessToken`. -/
def fallbackSetAccessToken (s : Store) (t : String) : Store :=
  { s with accessToken := some t }

/-- `FallbackTokenStorage.getAccessToken` (the value its promise
resolves with). -/
def fallbackGetAccessToken (s : Store) : Option String :=
  s.accessToken

/-- `FallbackTokenStorage.getRefreshToken`. -/
def fallbackGetRefreshToken (s : Store) : Option String :=
  s.refreshToken

/-! # Theorems -/

/-- While a refresh is in flight, every further coordinator entry
attaches to the pending promise and changes no state. -/
theorem entersFrom_busy (n : Nat) (c : Coord) (hb : c.isRefreshing = true) :
    entersFrom c n = (c, List.replicate n c.refreshPromise) := by
  induction n with
  | zero => simp [entersFrom]
  | succ n ih => simp [entersFrom, coordEnter, hb, ih, List.replicate]

/-- Claim C1: at most one token refresh is in flight at any time.  If
N ≥ 2 requests each observe a 401 and enter `handleTokenRefresh` — the
first finding the coordinator idle, the rest while that refresh is
still pending — then exactly one refresh call is issued, every one of
the N callers awaits the same pending promise, and when the refresh
resolves that shared promise holds the same result (the same new
access token on success, the same failure otherwise) for all of them. -/
theorem refresh_single_flight (c0 : Coord) (N : Nat) (hN : 2 ≤ N)
    (hidle : c0.isRefreshing = false) (r : Option String)
    (results : Nat → Option (Option String)) :
    (entersFrom c0 N).1.refreshCalls = c0.refreshCalls + 1 ∧
    (∀ pid ∈ (entersFrom c0 N).2, pid = some c0.nextId) ∧
    (coordResolve (entersFrom c0 N).1 r results).2 c0.nextId = some r := by
  obtain ⟨n, rfl⟩ : ∃ n, N = n + 1 := ⟨N - 1, by omega⟩
  have h1 : coordEnter c0 =
      ({ isRefreshing := true, refreshPromise := some c0.nextId,
         nextId := c0.nextId + 1, refreshCalls := c0.refreshCalls + 1 }, some c0.nextId) := by
    simp [coordEnter, hidle]
  have hb : entersFrom c0 (n + 1) =
      ({ isRefreshing := true, refreshPromise := some c0.nextId,
         nextId := c0.nextId + 1, refreshCalls := c0.refreshCalls + 1 },
       some c0.nextId :: List.replicate n (some c0.nextId)) := by
    simp only [entersFrom, h1]
    rw [entersFrom_busy n _ rfl]
  refine ⟨by rw [hb], ?_, ?_⟩
  · intro pid hpid
    rw [hb] at hpid
    rcases List.mem_cons.mp hpid with h | h
    · exact h
    · exact List.eq_of_mem_replicate h
  · rw [hb]
    simp [coordResolve]

/-- Witness for C1 at a concrete input: three callers from a fresh
coordinator; one refresh call; the shared promise resolves to the
token for everyone. -/
theorem refresh_single_flight_witness :
    (2 ≤ 3) ∧
    (entersFrom ({} : Coord) 3).1.refreshCalls = 0 + 1 ∧
    (coordResolve (entersFrom ({} : Coord) 3).1 (some "tok") (fun _ => none)).2 0 = some (some "tok") :=
  ⟨by decide,
   (refresh_single_flight {} 3 (by decide) rfl (some "tok") (fun _ => none)).1,
   (refresh_single_flight {} 3 (by decide) rfl (some "tok") (fun _ => none)).2.2⟩

/-- One iteration of the retry loop on a retryable failure: log the
fetch, fall to `catch`, do not break, sleep (when attempts remain) and
continue with the failure recorded as `lastError`. -/
theorem requestLoop_retryable_step (oracle : Nat → FetchOut) (rh : Trace → Res (Option String) × Trace)
    (url : String) (retries rem attempt : Nat) (hdrs : Headers) (le : Option ReqError) (tr : Trace)
    (h : retryableFailure (oracle tr.fetchCount)) (hrem : rem ≠ 0) :
    requestLoop oracle rh url retries rem attempt hdrs le tr =
      requestLoop oracle rh url retries (rem - 1) (attempt + 1) hdrs
        (some (surfacedError (oracle tr.fetchCount)))
        (if attempt < retries then
           logSleep (logFetch tr url (hdrs "Authorization")) (RETRY_DELAY * 2 ^ attempt)
         else logFetch tr url (hdrs "Authorization")) := by
  obtain ⟨rem2, rfl⟩ := Nat.exists_eq_succ_of_ne_zero hrem
  rcases h with h | ⟨r, ho, hs⟩
  · simp [requestLoop, surfacedError, isNonRetryable, h]
  · rcases hs with hs | hs <;> cases hj : r.isJson <;>
      simp [requestLoop, stepOfParse, parseResponse, HttpResp.okFlag, surfacedError,
            isNonRetryable, UNAUTHORIZED, BAD_REQUEST, FORBIDDEN, ho, hs, hj]

/-- A run of the retry loop in which every remaining attempt fails with
a retryable failure: all `rem` attempts are made with the backoff trail
between them, and the error of the last attempt is thrown. -/
theorem requestLoop_exhausts (oracle : Nat → FetchOut) (rh : Trace → Res (Option String) × Trace)
    (url : String) (retries : Nat) :
    ∀ (rem attempt : Nat) (hdrs : Headers) (le : Option ReqError) (tr : Trace),
      rem + attempt = retries + 1 → rem ≠ 0 →
      (∀ k, k < rem → retryableFailure (oracle (tr.fetchCount + k))) →
      requestLoop oracle rh url retries rem attempt hdrs le tr =
        (Res.thrown (surfacedError (oracle (tr.fetchCount + (rem - 1)))),
         { st := tr.st,
           events := tr.events ++ retryTrail url (hdrs "Authorization") retries attempt rem,
           fetchCount := tr.fetchCount + rem }) := by
  intro rem
  induction rem with
  | zero => intro attempt hdrs le tr _hsum hnz _hall; exact absurd rfl hnz
  | succ rem2 ih =>
    intro attempt hdrs le tr hsum hnz hall
    rw [requestLoop_retryable_step oracle rh url retries (rem2 + 1) attempt hdrs le tr
          (by simpa using hall 0 (by omega)) (by omega)]
    rcases Nat.eq_zero_or_pos rem2 with h2 | h2
    · subst h2
      have ha : attempt = retries := by omega
      subst ha
      simp [requestLoop, throwLast, retryTrail, logFetch]
    · have ha : attempt < retries := by omega
      rw [if_pos ha]
      simp only [Nat.add_sub_cancel]
      rw [ih (attempt + 1) hdrs (some (surfacedError (oracle tr.fetchCount)))
            (logSleep (logFetch tr url (hdrs "Authorization")) (RETRY_DELAY * 2 ^ attempt))
            (by omega) (by omega)
            (fun k hk => by
              have hx := hall (k + 1) (by omega)
              simp only [logSleep, logFetch]
              rw [show tr.fetchCount + 1 + k = tr.fetchCount + (k + 1) from by omega]
              exact hx)]
      have e1 : tr.fetchCount + 1 + (rem2 - 1) = tr.fetchCount + rem2 := by omega
      have e2 : tr.fetchCount + 1 + rem2 = tr.fetchCount + (rem2 + 1) := by omega
      simp only [logSleep, logFetch, e1, e2]
      simp [retryTrail, if_pos ha, List.append_assoc]

/-- Claim C2: when every attempt fails with a retryable failure (HTTP
500, timeout, or 429) and `maxRetries` is the default 3, exactly 4
network attempts are made, the delays between consecutive attempts are
1000 ms, 2000 ms and 4000 ms (delay before attempt n being
`baseDelay * 2 ^ (n-1)`), no delay follows the final attempt, and the
error of the last attempt is the one thrown to the caller. -/
theorem retry_backoff_exhaustion (oracle : Nat → FetchOut) (store : Store) (ep : String)
    (h : ∀ k, k < 4 → retryableFailure (oracle k)) :
    clientRequest oracle ep {} { st := { store := store } } =
      (Res.thrown (surfacedError (oracle 3)),
       { st := { store := store },
         events :=
           [Ev.fetch (buildApiUrl ep) (requestHeadersFor store (fun _ => none) "Authorization"),
            Ev.sleep 1000,
            Ev.fetch (buildApiUrl ep) (requestHeadersFor store (fun _ => none) "Authorization"),
            Ev.sleep 2000,
            Ev.fetch (buildApiUrl ep) (requestHeadersFor store (fun _ => none) "Authorization"),
            Ev.sleep 4000,
            Ev.fetch (buildApiUrl ep) (requestHeadersFor store (fun _ => none) "Authorization")],
         fetchCount := 4 }) := by
  have hx := requestLoop_exhausts oracle (handleTokenRefreshM oracle) (buildApiUrl ep) MAX_RETRIES
      (MAX_RETRIES + 1) 0 (requestHeadersFor store (fun _ => none)) none { st := { store := store } }
      (by norm_num) (by norm_num)
      (fun k hk => by
        have hk4 : k < 4 := by simp [MAX_RETRIES] at hk; omega
        simpa using h k hk4)
  calc clientRequest oracle ep {} { st := { store := store } }
      = requestLoop oracle (handleTokenRefreshM oracle) (buildApiUrl ep) MAX_RETRIES
          (MAX_RETRIES + 1) 0 (requestHeadersFor store (fun _ => none)) none
          { st := { store := store } } := rfl
    _ = _ := by
        rw [hx]
        simp [MAX_RETRIES, RETRY_DELAY, retryTrail]

/-- Witness for C2 at a concrete input: every attempt answers HTTP 500;
4 fetches, sleeps of 1000/2000/4000 ms, and the last 500 error is
thrown. -/
theorem retry_backoff_exhaustion_witness :
    retryableFailure (oracleAllServerErr 0) ∧
    clientRequest oracleAllServerErr "/events" {} { st := { store := {} } } =
      (Res.thrown (surfacedError (oracleAllServerErr 3)),
       { st := { store := {} },
         events :=
           [Ev.fetch (buildApiUrl "/events") none, Ev.sleep 1000,
            Ev.fetch (buildApiUrl "/events") none, Ev.sleep 2000,
            Ev.fetch (buildApiUrl "/events") none, Ev.sleep 4000,
            Ev.fetch (buildApiUrl "/events") none],
         fetchCount := 4 }) :=
  ⟨Or.inr ⟨respServerErr, rfl, Or.inl rfl⟩,
   retry_backoff_exhaustion oracleAllServerErr {} "/events"
     (fun _k _hk => Or.inr ⟨respServerErr, rfl, Or.inl rfl⟩)⟩

/-- Claim C3 (code bug): a refresh-call failure is NOT handled as the
spec says.  First conjunct: when the `/auth/refresh` POST itself
answers 401, the inner refresh request (401 at attempt 0, coordinator
already refreshing) awaits the very refresh promise it is fulfilling —
the execution hangs (`pending`), the tokens are never cleared and the
triggering request never terminates.  Second conjunct: when the
refresh POST succeeds with HTTP 200 but the body carries no token, the
tokens are likewise NOT cleared (`refreshToken` only clears in its
`catch`), though the request does end in the 401 auth failure. -/
theorem refresh_failure_divergence :
    (clientRequest oracleRefresh401 "/events" {} trExpired =
      (Res.pending,
       { st := { store := storeExpired, isRefreshing := true },
         events := [Ev.fetch (buildApiUrl "/events") (some "Bearer expired"),
                    Ev.fetch (buildApiUrl "/auth/refresh") (some "Bearer expired")],
         fetchCount := 2 })) ∧
    (clientRequest oracleRefreshNoToken "/events" {} trExpired =
      (Res.thrown (ReqError.api 401 "TOKEN_EXPIRED" "Token expired"),
       { st := { store := storeExpired, isRefreshing := false },
         events := [Ev.fetch (buildApiUrl "/events") (some "Bearer expired"),
                    Ev.fetch (buildApiUrl "/auth/refresh") (some "Bearer expired")],
         fetchCount := 2 })) :=
  ⟨rfl, rfl⟩

/-- Counterexample to claim C4: with `retries := 0`, after a 401 on
attempt 0 and a SUCCESSFUL refresh, the `continue` lands on
`attempt = 1 > retries` so the loop exits without ever re-issuing the
request: only one fetch of the endpoint happens, and the caller gets
the generic "Request failed after all retries" error instead of a
retry with the new token. -/
theorem refresh_retry_skipped_cex :
    (clientRequest oracleRefreshZero "/events" { retries := 0 } trExpired =
      (Res.thrown (ReqError.generic "Request failed after all retries"),
       { st := { store := { accessToken := some "new", refreshToken := some "rot1" } },
         events := [Ev.fetch (buildApiUrl "/events") (some "Bearer expired"),
                    Ev.fetch (buildApiUrl "/auth/refresh") (some "Bearer expired")],
         fetchCount := 2 })) ∧
    ((clientRequest oracleRefreshZero "/events" { retries := 0 } trExpired).2.events.filter
        (isFetchTo (buildApiUrl "/events"))).length = 1 :=
  ⟨rfl, rfl⟩

/-- Counterexample to claim C5: cancelling the in-flight attempt (the
fetch of attempt 0 rejects with `AbortError`) does NOT stop the retry
loop: a backoff delay of 1000 ms elapses, a further attempt is made
(the already-fired signal cannot abort it), and the caller observes
that attempt's SUCCESS — not a cancellation outcome. -/
theorem cancellation_not_propagated_cex :
    (clientRequest oracleAbortThenOk "/events" {} { st := {} } =
      (Res.ok { data := ParsedBody.json { success := true }, status := 200, ok := true },
       { st := {},
         events := [Ev.fetch (buildApiUrl "/events") none, Ev.sleep 1000,
                    Ev.fetch (buildApiUrl "/events") none],
         fetchCount := 2 })) ∧
    (Res.ok { data := ParsedBody.json { success := true }, status := 200, ok := true } ≠
      (Res.thrown ReqError.abortError : Res ReqResult)) :=
  ⟨rfl, by decide⟩

/-- Counterexample to claim C7: when an access token is present, the
request pipeline assigns `Authorization = Bearer <token>`
unconditionally, overwriting the caller-supplied Authorization header
rather than leaving it unmodified. -/
theorem auth_header_overwrite_cex :
    requestHeadersFor { accessToken := some "tok" } customAuthHeaders "Authorization" =
      some "Bearer tok" ∧
    customAuthHeaders "Authorization" = some "Custom abc" ∧
    some "Bearer tok" ≠ some "Custom abc" :=
  ⟨rfl, rfl, by decide⟩

/-- Counterexample to claim C8: after `setTokenStorage` installs the
promise-based `FallbackTokenStorage` with NO stored token,
`isAuthenticated()` returns `true` — `!!getAccessToken()` tests the
truthiness of the Promise object, not of the token. -/
theorem isAuthenticated_async_cex :
    isAuthenticated (ActiveTokenStorage.fallbackStorage {}) = true ∧
    accessTokenPresent (ActiveTokenStorage.fallbackStorage {}) = false :=
  ⟨rfl, rfl⟩

/-- Claim C8, amended: with the synchronous `DefaultTokenStorage`,
`isAuthenticated()` is the truthiness of the stored token (in
particular `true` implies a token is present); with either
promise-returning backend (keychain or fallback) it returns `true`
unconditionally, whatever is stored. -/
theorem isAuthenticated_amended :
    (∀ (t : String) (r : Option String),
      isAuthenticated (ActiveTokenStorage.defaultStorage { accessToken := some t, refreshToken := r }) =
        !(t == "")) ∧
    (∀ r : Option String,
      isAuthenticated (ActiveTokenStorage.defaultStorage { accessToken := none, refreshToken := r }) = false) ∧
    (∀ a r : Option String, isAuthenticated (ActiveTokenStorage.keychainStorage a r) = true) ∧
    (∀ s : Store, isAuthenticated (ActiveTokenStorage.fallbackStorage s) = true) ∧
    (∀ s : Store, isAuthenticated (ActiveTokenStorage.defaultStorage s) = true →
      accessTokenPresent (ActiveTokenStorage.defaultStorage s) = true) := by
  refine ⟨fun t r => rfl, fun r => rfl, fun a r => rfl, fun s => rfl, fun s h => ?_⟩
  cases hs : s.accessToken with
  | none => simp [isAuthenticated, getAccessTokenJs, jsTruthy, hs] at h
  | some t => simp [accessTokenPresent, hs]

/-- Witness for the amended C8 at concrete inputs. -/
theorem isAuthenticated_amended_witness :
    isAuthenticated (ActiveTokenStorage.defaultStorage { accessToken := some "t", refreshToken := none }) =
      !("t" == "") ∧
    isAuthenticated (ActiveTokenStorage.keychainStorage none none) = true ∧
    (isAuthenticated (ActiveTokenStorage.defaultStorage { accessToken := some "t", refreshToken := none }) = true →
      accessTokenPresent (ActiveTokenStorage.defaultStorage { accessToken := some "t", refreshToken := none }) = true) :=
  ⟨isAuthenticated_amended.1 "t" none,
   isAuthenticated_amended.2.2.1 none none,
   isAuthenticated_amended.2.2.2.2 { accessToken := some "t", refreshToken := none }⟩

/-- Counterexample to claim C9: a login whose HTTP response is a 401
does NOT leave the token store as it was: the 401 (at attempt 0)
triggers the refresh path, whose failing `/auth/refresh` call (400
here) clears both tokens, so the stale refresh token present before
the call is gone although login threw. -/
theorem login_mutates_store_cex :
    (loginM oracleLogin401 "user@example.com" "pw" trStale =
      (Res.thrown (ReqError.api 401 "BAD_CREDENTIALS" "Invalid"),
       { st := { store := { accessToken := none, refreshToken := none } },
         events := [Ev.fetch (buildApiUrl "/auth/login") none,
                    Ev.fetch (buildApiUrl "/auth/refresh") none],
         fetchCount := 2 })) ∧
    trStale.st.store.refreshToken ≠ none :=
  ⟨rfl, by decide⟩

/-- Claim C10: `getTokenStorage` never rejects; it resolves to the
keychain storage exactly when the keychain probe reports availability
(the probe resolved), and to a fresh in-memory fallback storage
otherwise (including when the probe throws); the fresh fallback's
getters resolve with null until a set stores a value. -/
theorem getTokenStorage_total :
    (∀ p : ProbeOutcome, (getTokenStorage p).isOk = true) ∧
    (∀ p : ProbeOutcome,
      (getTokenStorage p = Except.ok TokenStorageChoice.keychainChoice ↔ keychainIsAvailable p = true)) ∧
    (∀ m : String, getTokenStorage (ProbeOutcome.throwsErr m) =
      Except.ok (TokenStorageChoice.fallbackChoice { accessToken := none, refreshToken := none })) ∧
    (∀ b : Option String,
      getTokenStorage (ProbeOutcome.resolves b) = Except.ok TokenStorageChoice.keychainChoice) ∧
    fallbackGetAccessToken { accessToken := none, refreshToken := none } = none ∧
    fallbackGetRefreshToken { accessToken := none, refreshToken := none } = none ∧
    (∀ t : String,
      fallbackGetAccessToken (fallbackSetAccessToken { accessToken := none, refreshToken := none } t) = some t) := by
  refine ⟨fun p => ?_, fun p => ?_, fun m => rfl, fun b => rfl, rfl, rfl, fun t => rfl⟩
  · cases p <;> rfl
  · cases p <;> simp [getTokenStorage, keychainIsAvailable]

/-- Claim C4, amended: the refresh interception happens only when the
401 arrives on attempt 0, and the post-refresh retry happens only when
`maxRetries ≥ 1` (the `continue` consumes a retry slot; with
`maxRetries = 0` the loop exits with the generic exhausted error, see
the counterexample).  In that case: the first 401 is intercepted, the
request is retried exactly once carrying `Bearer <new token>`, and when
the retry also yields 401 that error is thrown as non-retryable with no
second refresh call — exactly three fetches happen (original, one
refresh, one retry). -/
theorem refresh_retry_once_amended (oracle : Nat → FetchOut) (retries : Nat) (tok : String)
    (hret : 1 ≤ retries) (htok : tok ≠ "")
    (h0 : oracle 0 = FetchOut.resp resp401)
    (h1 : oracle 1 = FetchOut.resp (refreshSuccessResp tok))
    (h2 : oracle 2 = FetchOut.resp resp401) :
    clientRequest oracle "/events" { retries := retries } trExpired =
      (Res.thrown (ReqError.api 401 "TOKEN_EXPIRED" "Token expired"),
       { st := { store := { accessToken := some tok, refreshToken := some "rot1" } },
         events := [Ev.fetch (buildApiUrl "/events") (some "Bearer expired"),
                    Ev.fetch (buildApiUrl "/auth/refresh") (some "Bearer expired"),
                    Ev.fetch (buildApiUrl "/events") (some ("Bearer " ++ tok))],
         fetchCount := 3 }) := by
  obtain ⟨k, rfl⟩ : ∃ k, retries = k + 1 := ⟨retries - 1, by omega⟩
  simp [clientRequest, requestM, requestLoop, handleTokenRefreshM, refreshTokenM,
        pendingRefreshHandler, requestHeadersFor, buildHeaders, mergeHeaders, setHeader,
        stepOfParse, parseResponse, HttpResp.okFlag, isNonRetryable, logFetch, logSleep,
        trExpired, storeExpired, refreshSuccessResp, resp401, setTokens, clearTokens,
        throwLast, h0, h1, h2, htok, MAX_RETRIES, RETRY_DELAY, UNAUTHORIZED, BAD_REQUEST,
        FORBIDDEN, DEFAULT_HEADERS]

/-- Witness for the amended C4 at a concrete input: default retries,
new token "new"; the retry carries it and its 401 is surfaced. -/
theorem refresh_retry_once_amended_witness :
    (1 ≤ 3) ∧ ("new" ≠ "") ∧
    clientRequest oracleRefreshThen401 "/events" { retries := 3 } trExpired =
      (Res.thrown (ReqError.api 401 "TOKEN_EXPIRED" "Token expired"),
       { st := { store := { accessToken := some "new", refreshToken := some "rot1" } },
         events := [Ev.fetch (buildApiUrl "/events") (some "Bearer expired"),
                    Ev.fetch (buildApiUrl "/auth/refresh") (some "Bearer expired"),
                    Ev.fetch (buildApiUrl "/events") (some ("Bearer " ++ "new"))],
         fetchCount := 3 }) :=
  ⟨by decide, by decide,
   refresh_retry_once_amended oracleRefreshThen401 3 "new" (by decide) (by decide) rfl rfl rfl⟩

/-- Claim C5, amended: the external cancellation signal aborts only the
attempt in flight when it fires (that fetch rejects with `AbortError`);
the retry loop does NOT stop: the backoff delay still elapses and the
next attempt is issued (the signal's abort event has already fired, so
re-registering the listener does not abort the new controller), and the
caller observes the outcome of the remaining attempts — here a plain
success. -/
theorem cancellation_scoped_amended (oracle : Nat → FetchOut) (retries : Nat) (ep : String)
    (store : Store) (b : RespBody)
    (hret : 1 ≤ retries)
    (h0 : oracle 0 = FetchOut.abort)
    (h1 : oracle 1 = FetchOut.resp { status := 200, body := b }) :
    clientRequest oracle ep { retries := retries } { st := { store := store } } =
      (Res.ok { data := ParsedBody.json b, status := 200, ok := true },
       { st := { store := store },
         events := [Ev.fetch (buildApiUrl ep) (requestHeadersFor store (fun _ => none) "Authorization"),
                    Ev.sleep 1000,
                    Ev.fetch (buildApiUrl ep) (requestHeadersFor store (fun _ => none) "Authorization")],
         fetchCount := 2 }) := by
  obtain ⟨k, rfl⟩ : ∃ k, retries = k + 1 := ⟨retries - 1, by omega⟩
  simp [clientRequest, requestM, requestLoop, stepOfParse, parseResponse, HttpResp.okFlag,
        isNonRetryable, logFetch, logSleep, throwLast, h0, h1, RETRY_DELAY, UNAUTHORIZED,
        BAD_REQUEST, FORBIDDEN]

/-- Witness for the amended C5 at a concrete input. -/
theorem cancellation_scoped_amended_witness :
    (1 ≤ 3) ∧
    clientRequest oracleAbortThenOk "/events" { retries := 3 } { st := { store := {} } } =
      (Res.ok { data := ParsedBody.json { success := true }, status := 200, ok := true },
       { st := { store := {} },
         events := [Ev.fetch (buildApiUrl "/events") none, Ev.sleep 1000,
                    Ev.fetch (buildApiUrl "/events") none],
         fetchCount := 2 }) :=
  ⟨by decide,
   cancellation_scoped_amended oracleAbortThenOk 3 "/events" {} { success := true }
     (by decide) rfl rfl⟩

/-- Claim C6: a non-retryable failure aborts the loop at once with the
triggering error unchanged.  First conjunct: an attempt answered by
HTTP 400 or 403 (any attempt number, any remaining budget) throws the
parsed `ApiClientError` immediately — the only event is that fetch, no
sleep, no further attempt.  Second conjunct: the same for a 401 on any
attempt ≥ 1 (i.e. after the attempt-0 refresh opportunity has passed).
Third conjunct: a 401 on attempt 0 whose refresh handler yields no new
token (refresh attempted and failed) is likewise thrown immediately. -/
theorem nonretryable_immediate_abort :
    (∀ (oracle : Nat → FetchOut) (rh : Trace → Res (Option String) × Trace)
       (url : String) (retries rem attempt : Nat) (hdrs : Headers) (le : Option ReqError)
       (tr : Trace) (s : Nat) (b : RespBody),
      (s = 400 ∨ s = 403) →
      oracle tr.fetchCount = FetchOut.resp { status := s, body := b } →
      requestLoop oracle rh url retries (rem + 1) attempt hdrs le tr =
        (Res.thrown (ReqError.api s (b.code.getD "UNKNOWN_ERROR") (b.message.getD "Request failed")),
         logFetch tr url (hdrs "Authorization"))) ∧
    (∀ (oracle : Nat → FetchOut) (rh : Trace → Res (Option String) × Trace)
       (url : String) (retries rem attempt : Nat) (hdrs : Headers) (le : Option ReqError)
       (tr : Trace) (b : RespBody),
      oracle tr.fetchCount = FetchOut.resp { status := 401, body := b } →
      requestLoop oracle rh url retries (rem + 1) (attempt + 1) hdrs le tr =
        (Res.thrown (ReqError.api 401 (b.code.getD "UNKNOWN_ERROR") (b.message.getD "Request failed")),
         logFetch tr url (hdrs "Authorization"))) ∧
    (∀ (oracle : Nat → FetchOut) (rh : Trace → Res (Option String) × Trace)
       (url : String) (retries rem : Nat) (hdrs : Headers) (le : Option ReqError)
       (tr tr2 : Trace) (b : RespBody),
      oracle tr.fetchCount = FetchOut.resp { status := 401, body := b } →
      rh (logFetch tr url (hdrs "Authorization")) = (Res.ok none, tr2) →
      requestLoop oracle rh url retries (rem + 1) 0 hdrs le tr =
        (Res.thrown (ReqError.api 401 (b.code.getD "UNKNOWN_ERROR") (b.message.getD "Request failed")),
         tr2)) := by
  refine ⟨?_, ?_, ?_⟩
  · intro oracle rh url retries rem attempt hdrs le tr s b hs h
    rcases hs with hs | hs <;> subst hs <;>
      simp [requestLoop, stepOfParse, parseResponse, HttpResp.okFlag, isNonRetryable,
            UNAUTHORIZED, BAD_REQUEST, FORBIDDEN, h]
  · intro oracle rh url retries rem attempt hdrs le tr b h
    simp [requestLoop, stepOfParse, parseResponse, HttpResp.okFlag, isNonRetryable,
          UNAUTHORIZED, BAD_REQUEST, FORBIDDEN, h]
  · intro oracle rh url retries rem hdrs le tr tr2 b h hrh
    simp [requestLoop, stepOfParse, parseResponse, HttpResp.okFlag, isNonRetryable,
          UNAUTHORIZED, BAD_REQUEST, FORBIDDEN, h, hrh]

/-- Witness for C6 at concrete inputs: a 400 on attempt 0, a 401 on
attempt 1, and a 401 on attempt 0 with a failed refresh, each throwing
immediately after a single fetch. -/
theorem nonretryable_immediate_abort_witness :
    (requestLoop oracle400flat pendingRefreshHandler "u" 3 4 0 (fun _ => none) none {} =
      (Res.thrown (ReqError.api 400 "BAD" "Bad"),
       { st := {}, events := [Ev.fetch "u" none], fetchCount := 1 })) ∧
    (requestLoop oracle401flat pendingRefreshHandler "u" 3 4 1 (fun _ => none) none {} =
      (Res.thrown (ReqError.api 401 "E" "M"),
       { st := {}, events := [Ev.fetch "u" none], fetchCount := 1 })) ∧
    (requestLoop oracle401flat (fun tr => (Res.ok none, tr)) "u" 3 4 0 (fun _ => none) none {} =
      (Res.thrown (ReqError.api 401 "E" "M"),
       { st := {}, events := [Ev.fetch "u" none], fetchCount := 1 })) :=
  ⟨nonretryable_immediate_abort.1 oracle400flat pendingRefreshHandler "u" 3 3 0 (fun _ => none)
     none {} 400 { code := some "BAD", message := some "Bad" } (Or.inl rfl) rfl,
   nonretryable_immediate_abort.2.1 oracle401flat pendingRefreshHandler "u" 3 3 0 (fun _ => none)
     none {} { code := some "E", message := some "M" } rfl,
   nonretryable_immediate_abort.2.2 oracle401flat (fun tr => (Res.ok none, tr)) "u" 3 3
     (fun _ => none) none {} { st := {}, events := [Ev.fetch "u" none], fetchCount := 1 }
     { code := some "E", message := some "M" } rfl rfl⟩

/-- Claim C7, amended: default headers are merged with caller headers
and caller headers win on conflict IN THE MERGE; but the subsequent
`Authorization` injection is unconditional whenever a (truthy) access
token is present — it overwrites a caller-supplied Authorization
header.  Only when no access token is stored do the merged headers
(including a caller Authorization) pass through unmodified. -/
theorem header_merge_amended :
    (∀ (custom : Headers) (k v : String), custom k = some v → buildHeaders custom k = some v) ∧
    (∀ (custom : Headers) (k : String), custom k = none → buildHeaders custom k = DEFAULT_HEADERS k) ∧
    (∀ (store : Store) (custom : Headers) (t : String), store.accessToken = some t → t ≠ "" →
      requestHeadersFor store custom "Authorization" = some ("Bearer " ++ t)) ∧
    (∀ (store : Store) (custom : Headers), store.accessToken = none →
      requestHeadersFor store custom = buildHeaders custom) := by
  refine ⟨?_, ?_, ?_, ?_⟩
  · intro custom k v h
    simp [buildHeaders, mergeHeaders, h]
  · intro custom k h
    simp [buildHeaders, mergeHeaders, h]
  · intro store custom t ha ht
    simp [requestHeadersFor, ha, ht, setHeader]
  · intro store custom h
    simp [requestHeadersFor, h]

/-- Witness for the amended C7 at concrete inputs. -/
theorem header_merge_amended_witness :
    buildHeaders customAuthHeaders "Authorization" = some "Custom abc" ∧
    buildHeaders customAuthHeaders "Accept" = DEFAULT_HEADERS "Accept" ∧
    requestHeadersFor { accessToken := some "tok" } customAuthHeaders "Authorization" =
      some ("Bearer " ++ "tok") ∧
    requestHeadersFor { accessToken := none } customAuthHeaders = buildHeaders customAuthHeaders :=
  ⟨header_merge_amended.1 customAuthHeaders "Authorization" "Custom abc" rfl,
   header_merge_amended.2.1 customAuthHeaders "Accept" rfl,
   header_merge_amended.2.2.1 { accessToken := some "tok" } customAuthHeaders "tok" rfl (by decide),
   header_merge_amended.2.2.2 { accessToken := none } customAuthHeaders rfl⟩

/-- The retry loop entered at a loop counter of at least 1 never
touches the client state: the refresh handler can only be invoked at
`attempt = 0`, and every other action of the loop only appends events. -/
theorem requestLoop_keeps_state (oracle : Nat → FetchOut) (rh : Trace → Res (Option String) × Trace)
    (url : String) (retries : Nat) :
    ∀ (rem attempt : Nat) (hdrs : Headers) (le : Option ReqError) (tr : Trace),
      ((requestLoop oracle rh url retries rem (attempt + 1) hdrs le tr).2).st = tr.st := by
  intro rem
  induction rem with
  | zero => intro attempt hdrs le tr; simp [requestLoop]
  | succ rem ih =>
    intro attempt hdrs le tr
    cases ho : oracle tr.fetchCount with
    | abort =>
      simp only [requestLoop, ho, isNonRetryable, Bool.false_eq_true, if_false]
      rw [ih]
      split <;> rfl
    | netErr m =>
      simp only [requestLoop, ho, isNonRetryable, Bool.false_eq_true, if_false]
      rw [ih]
      split <;> rfl
    | resp r =>
      cases hq : parseResponse r with
      | ok d =>
        simp [requestLoop, ho, stepOfParse, hq, logFetch]
      | error e =>
        cases hnr : isNonRetryable e with
        | true => simp [requestLoop, ho, stepOfParse, hq, hnr, logFetch]
        | false =>
          simp only [requestLoop, ho, stepOfParse, hq, hnr, Nat.succ_ne_zero, and_false,
                     if_false, Bool.false_eq_true]
          rw [ih]
          split <;> rfl

/-- The full retry loop never touches the client state when the first
attempt's response is not a 401: the refresh handler is then never
invoked, on any of the attempts.  This covers 400/403 aborts,
retry-exhausted 5xx/timeout/network runs, and non-JSON outcomes
alike. -/
theorem requestLoop_first_not_401_keeps_state (oracle : Nat → FetchOut)
    (rh : Trace → Res (Option String) × Trace) (url : String) (retries rem : Nat)
    (hdrs : Headers) (le : Option ReqError) (tr : Trace)
    (h401 : ∀ r : HttpResp, oracle tr.fetchCount = FetchOut.resp r → r.status ≠ 401) :
    ((requestLoop oracle rh url retries rem 0 hdrs le tr).2).st = tr.st := by
  cases rem with
  | zero => simp [requestLoop]
  | succ rem =>
    cases ho : oracle tr.fetchCount with
    | abort =>
      simp only [requestLoop, ho, isNonRetryable, Bool.false_eq_true, if_false]
      rw [requestLoop_keeps_state]
      split <;> rfl
    | netErr m =>
      simp only [requestLoop, ho, isNonRetryable, Bool.false_eq_true, if_false]
      rw [requestLoop_keeps_state]
      split <;> rfl
    | resp r =>
      have hs : r.status ≠ 401 := h401 r ho
      cases hq : parseResponse r with
      | ok d =>
        simp [requestLoop, ho, stepOfParse, hq, hs, UNAUTHORIZED, logFetch]
      | error e =>
        cases hnr : isNonRetryable e with
        | true => simp [requestLoop, ho, stepOfParse, hq, hnr, hs, UNAUTHORIZED, logFetch]
        | false =>
          simp only [requestLoop, ho, stepOfParse, hq, hnr, hs, UNAUTHORIZED, false_and,
                     and_true, eq_self_iff_true, if_false, Bool.false_eq_true]
          rw [requestLoop_keeps_state]
          split <;> rfl

/-- `login` either leaves the store exactly as the underlying request
left it, or takes the success-shaped write branch — and in the latter
case its result is an ok JSON body. -/
theorem loginM_store_cases (oracle : Nat → FetchOut) (em pw : String) (tr : Trace) :
    ((loginM oracle em pw tr).2).st.store =
      ((clientRequest oracle "/auth/login" { method := "POST" } tr).2).st.store ∨
    ∃ b : RespBody, (loginM oracle em pw tr).1 = Res.ok (ParsedBody.json b) := by
  rcases hc : clientRequest oracle "/auth/login" { method := "POST" } tr with ⟨res, tr2⟩
  cases res with
  | thrown e => left; simp [loginM, hc]
  | pending => left; simp [loginM, hc]
  | ok resp =>
    rcases hd : resp.data with b | s
    · rcases hbt : b.token with _ | t
      · left; simp [loginM, hc, hd, hbt]
      · by_cases hcond : b.success = true ∧ ¬ t = ""
        · right; exact ⟨b, by simp [loginM, hc, hd, hbt, hcond]⟩
        · left; simp [loginM, hc, hd, hbt, hcond]
    · left; simp [loginM, hc, hd]

/-- Claim C9, amended: `login`'s own logic writes the token store if
and only if the response is success-shaped (`success` true and a
truthy `data.token`).  Whenever the first attempt's response is not a
401 — so the refresh path is never entered — every other outcome
leaves the store exactly as it was: an HTTP 200 body that is not
success-shaped, a thrown 400 (proven with its exact error), and in
full generality every thrown error (403, retry-exhausted
500/timeout/429/network failures across all attempts) and every
non-JSON success.  (When the login response itself is a 401 on
attempt 0, the underlying request's refresh path may additionally
mutate the store — see the counterexample.) -/
theorem login_frame_amended (oracle : Nat → FetchOut) (store : Store) (em pw : String) :
    (∀ (b : RespBody) (tok : String),
      oracle 0 = FetchOut.resp { status := 200, body := b } → b.success = true →
      b.token = some tok → tok ≠ "" →
      (loginM oracle em pw { st := { store := store } }).1 = Res.ok (ParsedBody.json b) ∧
      (loginM oracle em pw { st := { store := store } }).2.st.store =
        { accessToken := some tok, refreshToken := b.refreshTok }) ∧
    (∀ b : RespBody,
      oracle 0 = FetchOut.resp { status := 200, body := b } →
      (b.success = false ∨ b.token = none ∨ b.token = some "") →
      (loginM oracle em pw { st := { store := store } }).1 = Res.ok (ParsedBody.json b) ∧
      (loginM oracle em pw { st := { store := store } }).2.st.store = store) ∧
    (∀ b : RespBody,
      oracle 0 = FetchOut.resp { status := 400, body := b } →
      (loginM oracle em pw { st := { store := store } }).1 =
        Res.thrown (ReqError.api 400 (b.code.getD "UNKNOWN_ERROR") (b.message.getD "Request failed")) ∧
      (loginM oracle em pw { st := { store := store } }).2.st.store = store) ∧
    ((∀ r : HttpResp, oracle 0 = FetchOut.resp r → r.status ≠ 401) →
      (∀ e : ReqError,
        (loginM oracle em pw { st := { store := store } }).1 = Res.thrown e →
        (loginM oracle em pw { st := { store := store } }).2.st.store = store) ∧
      (∀ s : String,
        (loginM oracle em pw { st := { store := store } }).1 = Res.ok (ParsedBody.text s) →
        (loginM oracle em pw { st := { store := store } }).2.st.store = store)) := by
  refine ⟨?_, ?_, ?_, ?_⟩
  · intro b tok h hs ht htok
    simp [loginM, clientRequest, requestM, requestLoop, stepOfParse, parseResponse,
          HttpResp.okFlag, isNonRetryable, logFetch, setTokens, h, hs, ht, htok,
          UNAUTHORIZED, MAX_RETRIES]
  · intro b h hcase
    rcases hcase with hs | ht | ht
    · cases hbt : b.token <;>
        simp [loginM, clientRequest, requestM, requestLoop, stepOfParse, parseResponse,
              HttpResp.okFlag, isNonRetryable, logFetch, setTokens, h, hs, hbt,
              UNAUTHORIZED, MAX_RETRIES]
    · simp [loginM, clientRequest, requestM, requestLoop, stepOfParse, parseResponse,
            HttpResp.okFlag, isNonRetryable, logFetch, setTokens, h, ht,
            UNAUTHORIZED, MAX_RETRIES]
    · simp [loginM, clientRequest, requestM, requestLoop, stepOfParse, parseResponse,
            HttpResp.okFlag, isNonRetryable, logFetch, setTokens, h, ht,
            UNAUTHORIZED, MAX_RETRIES]
  · intro b h
    simp [loginM, clientRequest, requestM, requestLoop, stepOfParse, parseResponse,
          HttpResp.okFlag, isNonRetryable, logFetch, h,
          UNAUTHORIZED, BAD_REQUEST, FORBIDDEN, MAX_RETRIES]
  · intro h401
    have hst : ((clientRequest oracle "/auth/login" { method := "POST" }
        { st := { store := store } }).2).st.store = store :=
      congrArg ClientState.store
        (requestLoop_first_not_401_keeps_state oracle (handleTokenRefreshM oracle)
          (buildApiUrl "/auth/login") MAX_RETRIES (MAX_RETRIES + 1)
          (requestHeadersFor store (fun _ => none)) none { st := { store := store } }
          (fun r hr => h401 r hr))
    constructor
    · intro e he
      rcases loginM_store_cases oracle em pw { st := { store := store } } with hcase | ⟨b, hb⟩
      · rw [hcase]; exact hst
      · rw [he] at hb; exact absurd hb (by simp)
    · intro s hs2
      rcases loginM_store_cases oracle em pw { st := { store := store } } with hcase | ⟨b, hb⟩
      · rw [hcase]; exact hst
      · rw [hs2] at hb
        simp at hb

/-- Witness for the amended C9 at concrete inputs: a success-shaped
login writes the tokens; a success-less 200 leaves the store; a 400
throws its exact error; a retry-exhausted all-500 run and a non-JSON
200 both leave a loaded store untouched. -/
theorem login_frame_amended_witness :
    ((loginM oracleLoginSuccess "e" "p" { st := { store := {} } }).2.st.store =
      { accessToken := some "t1", refreshToken := some "r9" }) ∧
    ((loginM oracleLoginFlat "e" "p" { st := { store := {} } }).2.st.store = {}) ∧
    ((loginM oracle400flat "e" "p" { st := { store := {} } }).1 =
      Res.thrown (ReqError.api 400 "BAD" "Bad")) ∧
    ((loginM oracleAllServerErr "e" "p"
        { st := { store := { accessToken := some "a0", refreshToken := some "r0" } } }).2.st.store =
      { accessToken := some "a0", refreshToken := some "r0" }) ∧
    ((loginM oracleTextOk "e" "p"
        { st := { store := { accessToken := some "a0", refreshToken := some "r0" } } }).2.st.store =
      { accessToken := some "a0", refreshToken := some "r0" }) :=
  ⟨(login_frame_amended oracleLoginSuccess {} "e" "p").1
     { success := true, token := some "t1", refreshTok := some "r9" } "t1" rfl rfl rfl (by decide) |>.2,
   (login_frame_amended oracleLoginFlat {} "e" "p").2.1 { success := false } rfl (Or.inl rfl) |>.2,
   (login_frame_amended oracle400flat {} "e" "p").2.2.1
     { code := some "BAD", message := some "Bad" } rfl |>.1,
   ((login_frame_amended oracleAllServerErr
        { accessToken := some "a0", refreshToken := some "r0" } "e" "p").2.2.2
      (fun r hr => by injection hr with h2; subst h2; decide)).1
     (ReqError.api 500 "SRV" "boom") rfl,
   ((login_frame_amended oracleTextOk
        { accessToken := some "a0", refreshToken := some "r0" } "e" "p").2.2.2
      (fun r hr => by injection hr with h2; subst h2; decide)).2 "pong" rfl⟩

end Happenin
